import Mathlib

/-! Shallow embedding of the video streaming relay server (`src/app.py`).

The server keeps process-wide mutable state: the latest decoded frame, a
stream-active flag, the time of the last accepted frame, the oil-spill flag
and the append-only history of spill events, plus the set of spill frames
persisted to disk.  Each HTTP handler is embedded as a pure function from
the request data (and an environment supplying the external collaborators:
the codec, the clock, the filesystem) and the current state to the next
state paired with the HTTP reply.

Machine integers do not appear; times are modelled as natural-number clock
readings (`time.time()` values), and frame ages as integers so that the
subtraction `server_time - last_frame_time` is the genuine one.  The codec
(`cv2.imdecode`) and the filesystem (`cv2.imwrite`) are the external
collaborators the spec names; they are modelled as oracles in the upload
environment, including the possibility that they raise, which the handler
catches and turns into a 500 reply (the `try`/`except` of lines 98-140).
-/

/-- A recorded oil-spill event (the dict built at lines 119-123 of
`src/app.py`). -/
structure SpillEvent where
  timestamp : String
  datetime : String
  frame_path : String
deriving Repr, DecidableEq

/-- The process-wide mutable state of `src/app.py` (lines 19-24), together
with the list of spill frame files persisted to disk by `cv2.imwrite`
(line 116), in the order they were written.  `F` is the type of decoded
frames, opaque to the server. -/
structure ServerState (F : Type) where
  latest_frame : Option F
  stream_active : Bool
  last_frame_time : Nat
  oil_spill_detected : Bool
  oil_spill_history : List SpillEvent
  saved_files : List String
deriving Repr, DecidableEq

/-- The state at process start: no frame, inactive, `last_frame_time = 0`,
no spill flag, empty history, nothing on disk. -/
def initialState (F : Type) : ServerState F :=
  { latest_frame := none
    stream_active := false
    last_frame_time := 0
    oil_spill_detected := false
    oil_spill_history := []
    saved_files := [] }

/-- Constant `SPILL_FRAMES_DIR` of line 28. -/
def SPILL_FRAMES_DIR : String := "oil_spill_frames"

/-- The path built at line 115: `os.path.join(SPILL_FRAMES_DIR,
f"oil_spill_{timestamp}.jpg")`. -/
def spillFramePath (timestamp : String) : String :=
  SPILL_FRAMES_DIR ++ "/oil_spill_" ++ timestamp ++ ".jpg"

/-- The event record of lines 119-123. -/
def mkSpillEvent (timestamp isoDatetime : String) : SpillEvent :=
  { timestamp := timestamp
    datetime := isoDatetime
    frame_path := spillFramePath timestamp }

/-- An upload request: the two headers read by `upload_frame` (absent
headers are `none`, as `request.headers.get` returns `None`) and the raw
body bytes, of an abstract type `B`. -/
structure UploadRequest (B : Type) where
  x_camera_auth : Option String
  x_oil_spill_detected : Option String
  data : B

/-- The external collaborators consulted during one upload: the codec
(`np.frombuffer` + `cv2.imdecode`, which either raises, returns no frame,
or returns a frame), the filesystem write `cv2.imwrite` (which may raise),
the clock reading `time.time()` taken at line 134, and the two
`datetime.now()` renderings of lines 112 and 121. -/
structure UploadEnv (B F : Type) where
  decode : B → Option F
  decodeThrows : B → Bool
  imwriteThrows : Bool
  now : Nat
  timestamp : String
  isoDatetime : String

/-- The replies `upload_frame` can produce: 401 "Unauthorized",
400 "Invalid image data", 500 with the exception message, and
200 "Frame received". -/
inductive UploadReply where
  | unauthorized
  | invalidImageData
  | serverError (msg : String)
  | frameReceived
deriving Repr, DecidableEq

/-- Lines 129-134: the unconditional tail of a successful upload.  Sets
`oil_spill_detected` to the incoming signal, swaps in the new frame under
`frame_lock`, sets `stream_active = True` and stamps `last_frame_time`. -/
def finishUpload {F : Type} (spill_detected : Bool) (frame : F) (now : Nat)
    (s : ServerState F) : ServerState F :=
  { s with
    oil_spill_detected := spill_detected
    latest_frame := some frame
    stream_active := true
    last_frame_time := now }

/-- Handler `upload_frame` (lines 90-140 of `src/app.py`).  Auth check first
(line 94); then, inside the `try`, decode (lines 99-104); then the spill
signal is the exact comparison of the header with the string "true"
(line 107); on a rising edge the frame is persisted and an event appended
(lines 110-124); finally the flag and the frame store are updated
(lines 129-134).  A raise from the codec or from `cv2.imwrite` is caught
by the `except` and becomes a 500 reply. -/
def upload_frame {B F : Type} (camera_password : String)
    (env : UploadEnv B F) (req : UploadRequest B) (s : ServerState F) :
    ServerState F × UploadReply :=
  if req.x_camera_auth ≠ some camera_password then
    (s, .unauthorized)
  else if env.decodeThrows req.data then
    (s, .serverError "decode raised")
  else
    match env.decode req.data with
    | none => (s, .invalidImageData)
    | some frame =>
      let spill_detected : Bool := req.x_oil_spill_detected == some "true"
      if spill_detected && !s.oil_spill_detected then
        if env.imwriteThrows then
          (s, .serverError "imwrite raised")
        else
          let s1 : ServerState F :=
            { s with
              saved_files := s.saved_files ++ [spillFramePath env.timestamp]
              oil_spill_history :=
                s.oil_spill_history ++ [mkSpillEvent env.timestamp env.isoDatetime] }
          (finishUpload spill_detected frame env.now s1, .frameReceived)
      else
        (finishUpload spill_detected frame env.now s, .frameReceived)

/-- Replies of `/stream` (lines 35-55): 503 "No active stream", or a 200
multipart response whose body is the generator. -/
inductive StreamReply where
  | noActiveStream
  | mjpegStream
deriving Repr, DecidableEq

/-- Handler `video_feed` (lines 35-55): if `stream_active` is false it returns 503
immediately and the generator is never opened; otherwise it opens the
multipart stream.  It reads but never writes the state. -/
def video_feed {F : Type} (s : ServerState F) : ServerState F × StreamReply :=
  if !s.stream_active then (s, .noActiveStream)
  else (s, .mjpegStream)

/-- Replies of `/api/frame` (lines 57-67): 503 "No frame available", or the
JPEG encoding of the frame that was read under the lock. -/
inductive FrameReply (F : Type) where
  | noFrameAvailable
  | jpeg (frame : F)
deriving Repr, DecidableEq

/-- Handler `get_latest_frame` (lines 57-67): under the lock, 503 if
`latest_frame is None or not stream_active`; otherwise the current frame is
encoded and returned.  It reads but never writes the state. -/
def get_latest_frame {F : Type} (s : ServerState F) :
    ServerState F × FrameReply F :=
  match s.latest_frame with
  | none => (s, .noFrameAvailable)
  | some f => if !s.stream_active then (s, .noFrameAvailable) else (s, .jpeg f)

/-- The JSON body of `/api/status` (lines 76-83). -/
structure StatusJson where
  stream_active : Bool
  last_frame_time : Nat
  frame_age_seconds : Option Int
  server_time : Nat
  oil_spill_detected : Bool
  oil_spill_events : Nat
deriving Repr, DecidableEq

/-- Handler `get_status` (lines 69-83): reads the clock, computes
`frame_age = current_time - last_frame_time if last_frame_time > 0 else
None`, and reports the state.  Pure read, no mutation. -/
def get_status {F : Type} (current_time : Nat) (s : ServerState F) :
    StatusJson :=
  { stream_active := s.stream_active
    last_frame_time := s.last_frame_time
    frame_age_seconds :=
      if s.last_frame_time > 0 then
        some ((current_time : Int) - (s.last_frame_time : Int))
      else none
    server_time := current_time
    oil_spill_detected := s.oil_spill_detected
    oil_spill_events := s.oil_spill_history.length }

/-- Replies of the start/stop endpoints (lines 142-160). -/
inductive ControlReply where
  | unauthorized
  | streamStarted
  | streamStopped
deriving Repr, DecidableEq

/-- Handler `start_stream` (lines 142-150): 401 if the JSON body password
mismatches, else sets `stream_active = True` and nothing else. -/
def start_stream {F : Type} (camera_password : String)
    (body_password : Option String) (s : ServerState F) :
    ServerState F × ControlReply :=
  if body_password ≠ some camera_password then (s, .unauthorized)
  else ({ s with stream_active := true }, .streamStarted)

/-- Handler `stop_stream` (lines 152-160): 401 if the JSON body password
mismatches, else sets `stream_active = False` and nothing else. -/
def stop_stream {F : Type} (camera_password : String)
    (body_password : Option String) (s : ServerState F) :
    ServerState F × ControlReply :=
  if body_password ≠ some camera_password then (s, .unauthorized)
  else ({ s with stream_active := false }, .streamStopped)

/-! A driver for sequences of successful uploads

For the rising-edge claims we run `upload_frame` over a list of spill
signals, all other inputs benign: correct credentials, a decoder that
always yields a frame, no raises.  Upload number `i` carries body `i`,
clock reading `i + 1` and timestamp `toString i`. -/

/-- The benign environment for the i-th upload of a signal sequence. -/
def signalEnv (i : Nat) : UploadEnv Nat Nat :=
  { decode := fun b => some b
    decodeThrows := fun _ => false
    imwriteThrows := false
    now := i + 1
    timestamp := toString i
    isoDatetime := toString i }

/-- The request for the i-th upload of a signal sequence: correct
credentials, spill header exactly "true" when the signal is true and
absent otherwise. -/
def signalRequest (camera_password : String) (sig : Bool) (i : Nat) :
    UploadRequest Nat :=
  { x_camera_auth := some camera_password
    x_oil_spill_detected := if sig then some "true" else none
    data := i }

/-- Run a list of spill signals as successive successful uploads. -/
def runSignals (camera_password : String) :
    List Bool → Nat → ServerState Nat → ServerState Nat
  | [], _, s => s
  | sig :: rest, i, s =>
      runSignals camera_password rest (i + 1)
        (upload_frame camera_password (signalEnv i)
          (signalRequest camera_password sig i) s).1

/-! Interleaving model for concurrent uploads

The alert evaluation of `upload_frame` (lines 107-129) runs *outside*
`frame_lock`; only the frame swap of lines 131-134 is locked.  Between the
read of `oil_spill_detected` in the condition at line 110 and its write at
line 129 sit the blocking `cv2.imwrite` call and two `datetime` calls, so
a second upload thread can be scheduled there.  We model one upload, after
auth and decode succeeded, as three atomic steps at exactly that
granularity:

* `evalEdge`  — lines 110-124: read the global flag; on a rising edge
  persist the frame and append the event;
* `writeFlag` — line 129: write the signal to the global flag;
* `swapFrame` — lines 131-134: the locked frame swap.

A schedule is a list of thread indices; each entry runs the next pending
step of that thread. -/

/-- The per-thread constants of one in-flight upload whose auth and decode
already succeeded. -/
structure UploadThread (F : Type) where
  signal : Bool
  frame : F
  now : Nat
  timestamp : String
  isoDatetime : String
deriving Repr

/-- The three atomic steps of the shared-state part of one upload. -/
inductive UploadStep where
  | evalEdge
  | writeFlag
  | swapFrame
deriving Repr, DecidableEq

/-- The program each upload thread still has to execute, in order. -/
def uploadProgram : List UploadStep := [.evalEdge, .writeFlag, .swapFrame]

/-- Effect of one atomic step of thread `t` on the shared state. -/
def runUploadStep {F : Type} (t : UploadThread F) (st : UploadStep)
    (s : ServerState F) : ServerState F :=
  match st with
  | .evalEdge =>
      if t.signal && !s.oil_spill_detected then
        { s with
          saved_files := s.saved_files ++ [spillFramePath t.timestamp]
          oil_spill_history :=
            s.oil_spill_history ++ [mkSpillEvent t.timestamp t.isoDatetime] }
      else s
  | .writeFlag => { s with oil_spill_detected := t.signal }
  | .swapFrame =>
      { s with
        latest_frame := some t.frame
        stream_active := true
        last_frame_time := t.now }

/-- Run a schedule over a pool of threads, each paired with its remaining
steps.  An index past the pool, or a finished thread, is a no-op tick. -/
def runSchedule {F : Type} :
    List Nat → List (UploadThread F × List UploadStep) → ServerState F →
    ServerState F
  | [], _, s => s
  | i :: rest, threads, s =>
      match threads[i]? with
      | none => runSchedule rest threads s
      | some (t, prog) =>
          match prog with
          | [] => runSchedule rest threads s
          | st :: prog2 =>
              runSchedule rest (threads.set i (t, prog2)) (runUploadStep t st s)

/-! Concrete instances used by the theorems below: benign and failing
upload requests and environments, a state with one frame received, and a
pool of two in-flight upload threads both signalling a spill. -/

/-- An upload request carrying no auth header at all. -/
def uploadReqNoAuth : UploadRequest Nat :=
  { x_camera_auth := none, x_oil_spill_detected := some "true", data := 0 }

/-- An environment whose codec rejects every body (malformed bytes). -/
def uploadEnvDecodeFail : UploadEnv Nat Nat :=
  { decode := fun _ => none, decodeThrows := fun _ => false,
    imwriteThrows := false, now := 1, timestamp := "t", isoDatetime := "t" }

/-- An upload whose spill header is the capitalised string "True". -/
def uploadReqTrueCap : UploadRequest Nat :=
  { x_camera_auth := some "pw", x_oil_spill_detected := some "True", data := 7 }

/-- A state that received one frame at clock reading 5, no spill. -/
def stC8 : ServerState Nat :=
  { latest_frame := some 1
    stream_active := true
    last_frame_time := 5
    oil_spill_detected := false
    oil_spill_history := []
    saved_files := [] }

/-- First in-flight upload thread: spill signalled, frame 10, clock 3. -/
def threadA : UploadThread Nat :=
  { signal := true, frame := 10, now := 3, timestamp := "a", isoDatetime := "a" }

/-- Second in-flight upload thread: spill signalled, frame 11, clock 4. -/
def threadB : UploadThread Nat :=
  { signal := true, frame := 11, now := 4, timestamp := "b", isoDatetime := "b" }

/-- Two concurrent uploads, each with its full program pending. -/
def threadPool : List (UploadThread Nat × List UploadStep) :=
  [(threadA, uploadProgram), (threadB, uploadProgram)]

/-- The sequential upload environment matching `threadA`. -/
def uploadEnvA : UploadEnv Nat Nat :=
  { decode := fun b => some b, decodeThrows := fun _ => false,
    imwriteThrows := false, now := 3, timestamp := "a", isoDatetime := "a" }

/-- The sequential upload environment matching `threadB`. -/
def uploadEnvB : UploadEnv Nat Nat :=
  { decode := fun b => some b, decodeThrows := fun _ => false,
    imwriteThrows := false, now := 4, timestamp := "b", isoDatetime := "b" }

/-- The sequential upload request matching `threadA`. -/
def uploadReqA : UploadRequest Nat :=
  { x_camera_auth := some "pw", x_oil_spill_detected := some "true", data := 10 }

/-- The sequential upload request matching `threadB`. -/
def uploadReqB : UploadRequest Nat :=
  { x_camera_auth := some "pw", x_oil_spill_detected := some "true", data := 11 }

/-- Case analysis on `upload_frame`: every reply other than 200 "Frame
received" leaves the whole state (disk files included) untouched, because
every early return of lines 94-130 precedes the first state write of
line 124. -/
theorem upload_frame_state_or_success {B F : Type} (camera_password : String)
    (env : UploadEnv B F) (req : UploadRequest B) (s : ServerState F) :
    (upload_frame camera_password env req s).2 = .frameReceived
    ∨ (upload_frame camera_password env req s).1 = s := by
  unfold upload_frame
  repeat' split
  all_goals simp
  all_goals (split <;> simp)

/-- C1: on a successful upload, a spill event is appended if and only if
the incoming X-Oil-Spill-Detected signal is exactly "true" and the stored
`oil_spill_detected` flag was false immediately before; the flag is set to
the incoming signal unconditionally; and on a fresh state the signal
sequence [false, true, true, false, true] yields exactly 2 events. -/
theorem upload_rising_edge {B F : Type} (camera_password : String)
    (env : UploadEnv B F) (req : UploadRequest B) (s : ServerState F) (frame : F)
    (hauth : req.x_camera_auth = some camera_password)
    (hnothrow : env.decodeThrows req.data = false)
    (himwrite : env.imwriteThrows = false)
    (hdecode : env.decode req.data = some frame) :
    ((upload_frame camera_password env req s).1.oil_spill_history =
        s.oil_spill_history ++ [mkSpillEvent env.timestamp env.isoDatetime] ↔
      (req.x_oil_spill_detected = some "true" ∧ s.oil_spill_detected = false))
    ∧ (¬ (req.x_oil_spill_detected = some "true" ∧ s.oil_spill_detected = false) →
        (upload_frame camera_password env req s).1.oil_spill_history =
          s.oil_spill_history)
    ∧ (upload_frame camera_password env req s).1.oil_spill_detected =
        (req.x_oil_spill_detected == some "true")
    ∧ (runSignals "secret" [false, true, true, false, true] 0
        (initialState Nat)).oil_spill_history.length = 2 := by
  refine ⟨?_, ?_, ?_, by decide⟩ <;>
  · by_cases hsig : req.x_oil_spill_detected = some "true" <;>
      cases hflag : s.oil_spill_detected <;>
      simp [upload_frame, hauth, hnothrow, hdecode, himwrite, hsig, hflag,
        finishUpload]

/-- Witness for C1: a spill-signalling upload on the fresh state, which is
a rising edge and appends the event. -/
theorem upload_rising_edge_witness :
    ((upload_frame "pw" (signalEnv 0) (signalRequest "pw" true 0)
        (initialState Nat)).1.oil_spill_history =
      (initialState Nat).oil_spill_history ++
        [mkSpillEvent (signalEnv 0).timestamp (signalEnv 0).isoDatetime] ↔
      ((signalRequest "pw" true 0).x_oil_spill_detected = some "true"
        ∧ (initialState Nat).oil_spill_detected = false))
    ∧ (¬ ((signalRequest "pw" true 0).x_oil_spill_detected = some "true"
        ∧ (initialState Nat).oil_spill_detected = false) →
      (upload_frame "pw" (signalEnv 0) (signalRequest "pw" true 0)
        (initialState Nat)).1.oil_spill_history =
        (initialState Nat).oil_spill_history)
    ∧ (upload_frame "pw" (signalEnv 0) (signalRequest "pw" true 0)
        (initialState Nat)).1.oil_spill_detected =
      ((signalRequest "pw" true 0).x_oil_spill_detected == some "true")
    ∧ (runSignals "secret" [false, true, true, false, true] 0
        (initialState Nat)).oil_spill_history.length = 2 :=
  upload_rising_edge "pw" (signalEnv 0) (signalRequest "pw" true 0)
    (initialState Nat) 0 rfl rfl rfl rfl

/-- C2: the alert evaluation of `upload_frame` (lines 107-129) runs outside
`frame_lock`, so two concurrent spill-signalling uploads can both observe
`oil_spill_detected = false` before either writes it back: the interleaved
schedule appends two events (a double-fire) where the sequential schedule
— which coincides with two composed `upload_frame` calls — appends exactly
one.  This refutes the claimed atomicity of edge-detection plus append. -/
theorem concurrent_uploads_double_fire :
    runSchedule [0, 0, 0, 1, 1, 1] threadPool (initialState Nat) =
      (upload_frame "pw" uploadEnvB uploadReqB
        (upload_frame "pw" uploadEnvA uploadReqA (initialState Nat)).1).1
    ∧ (runSchedule [0, 0, 0, 1, 1, 1] threadPool
        (initialState Nat)).oil_spill_history.length = 1
    ∧ (runSchedule [0, 1, 0, 1, 0, 1] threadPool
        (initialState Nat)).oil_spill_history.length = 2 :=
  ⟨by decide, by decide, by decide⟩

/-- C3: an authorised upload whose body decodes replaces `latest_frame`
with the decoded frame, sets `stream_active`, stamps `last_frame_time`
with the current clock and replies 200 "Frame received"; if the body fails
to decode the state is left unchanged and the reply is the 400 decode
error. -/
theorem upload_success_replaces_frame {B F : Type} (camera_password : String)
    (env : UploadEnv B F) (req : UploadRequest B) (s : ServerState F)
    (hauth : req.x_camera_auth = some camera_password)
    (hnothrow : env.decodeThrows req.data = false)
    (himwrite : env.imwriteThrows = false) :
    (∀ frame : F, env.decode req.data = some frame →
      (upload_frame camera_password env req s).2 = .frameReceived
      ∧ (upload_frame camera_password env req s).1.latest_frame = some frame
      ∧ (upload_frame camera_password env req s).1.stream_active = true
      ∧ (upload_frame camera_password env req s).1.last_frame_time = env.now)
    ∧ (env.decode req.data = none →
      (upload_frame camera_password env req s).1 = s
      ∧ (upload_frame camera_password env req s).2 = .invalidImageData) := by
  constructor
  · intro frame hdecode
    by_cases hsig : req.x_oil_spill_detected = some "true" <;>
      cases hflag : s.oil_spill_detected <;>
      simp [upload_frame, hauth, hnothrow, hdecode, himwrite, hsig, hflag,
        finishUpload]
  · intro hdecode
    simp [upload_frame, hauth, hnothrow, hdecode]

/-- Witness for C3: an authorised upload on the fresh state with a codec
that decodes every body. -/
theorem upload_success_replaces_frame_witness :
    (∀ frame : Nat, (signalEnv 0).decode (signalRequest "pw" true 0).data = some frame →
      (upload_frame "pw" (signalEnv 0) (signalRequest "pw" true 0) (initialState Nat)).2 = .frameReceived
      ∧ (upload_frame "pw" (signalEnv 0) (signalRequest "pw" true 0) (initialState Nat)).1.latest_frame = some frame
      ∧ (upload_frame "pw" (signalEnv 0) (signalRequest "pw" true 0) (initialState Nat)).1.stream_active = true
      ∧ (upload_frame "pw" (signalEnv 0) (signalRequest "pw" true 0) (initialState Nat)).1.last_frame_time = (signalEnv 0).now)
    ∧ ((signalEnv 0).decode (signalRequest "pw" true 0).data = none →
      (upload_frame "pw" (signalEnv 0) (signalRequest "pw" true 0) (initialState Nat)).1 = initialState Nat
      ∧ (upload_frame "pw" (signalEnv 0) (signalRequest "pw" true 0) (initialState Nat)).2 = .invalidImageData) :=
  upload_success_replaces_frame "pw" (signalEnv 0) (signalRequest "pw" true 0)
    (initialState Nat) rfl rfl rfl

/-- C4: any upload that does not reply 200 — auth failure, decode failure,
or a 500 from a raising collaborator — leaves `latest_frame`,
`stream_active`, `last_frame_time`, `oil_spill_detected` and
`oil_spill_history` exactly as they were before the call. -/
theorem upload_failure_leaves_state {B F : Type} (camera_password : String)
    (env : UploadEnv B F) (req : UploadRequest B) (s : ServerState F)
    (hfail : (upload_frame camera_password env req s).2 ≠ .frameReceived) :
    (upload_frame camera_password env req s).1.latest_frame = s.latest_frame
    ∧ (upload_frame camera_password env req s).1.stream_active = s.stream_active
    ∧ (upload_frame camera_password env req s).1.last_frame_time = s.last_frame_time
    ∧ (upload_frame camera_password env req s).1.oil_spill_detected = s.oil_spill_detected
    ∧ (upload_frame camera_password env req s).1.oil_spill_history = s.oil_spill_history := by
  rcases upload_frame_state_or_success camera_password env req s with h | h
  · exact absurd h hfail
  · rw [h]
    exact ⟨rfl, rfl, rfl, rfl, rfl⟩

/-- Witness for C4: an upload with no auth header fails and mutates
nothing. -/
theorem upload_failure_leaves_state_witness :
    (upload_frame "pw" (signalEnv 0) uploadReqNoAuth (initialState Nat)).1.latest_frame = (initialState Nat).latest_frame
    ∧ (upload_frame "pw" (signalEnv 0) uploadReqNoAuth (initialState Nat)).1.stream_active = (initialState Nat).stream_active
    ∧ (upload_frame "pw" (signalEnv 0) uploadReqNoAuth (initialState Nat)).1.last_frame_time = (initialState Nat).last_frame_time
    ∧ (upload_frame "pw" (signalEnv 0) uploadReqNoAuth (initialState Nat)).1.oil_spill_detected = (initialState Nat).oil_spill_detected
    ∧ (upload_frame "pw" (signalEnv 0) uploadReqNoAuth (initialState Nat)).1.oil_spill_history = (initialState Nat).oil_spill_history :=
  upload_failure_leaves_state "pw" (signalEnv 0) uploadReqNoAuth
    (initialState Nat) (by decide)

/-- C5: an upload whose X-Camera-Auth header differs from the shared
secret replies 401 and the state — frame store, alert state and the files
persisted to disk — is exactly the one before the call. -/
theorem upload_unauthorized_noop {B F : Type} (camera_password : String)
    (env : UploadEnv B F) (req : UploadRequest B) (s : ServerState F)
    (hauth : req.x_camera_auth ≠ some camera_password) :
    (upload_frame camera_password env req s).2 = .unauthorized
    ∧ (upload_frame camera_password env req s).1 = s := by
  simp [upload_frame, hauth]

/-- Witness for C5: the header-less upload is rejected with 401 and the
fresh state is returned unchanged. -/
theorem upload_unauthorized_noop_witness :
    (upload_frame "pw" (signalEnv 0) uploadReqNoAuth (initialState Nat)).2 = .unauthorized
    ∧ (upload_frame "pw" (signalEnv 0) uploadReqNoAuth (initialState Nat)).1 = initialState Nat :=
  upload_unauthorized_noop "pw" (signalEnv 0) uploadReqNoAuth
    (initialState Nat) (by decide)

/-- C6: an authorised upload whose body the decoder rejects replies 400
and leaves the whole state unchanged — in particular no spill event is
appended and `oil_spill_detected` keeps its old value even when the spill
header is "true". -/
theorem upload_decode_failure_noop {B F : Type} (camera_password : String)
    (env : UploadEnv B F) (req : UploadRequest B) (s : ServerState F)
    (hauth : req.x_camera_auth = some camera_password)
    (hnothrow : env.decodeThrows req.data = false)
    (hdecode : env.decode req.data = none) :
    (upload_frame camera_password env req s).2 = .invalidImageData
    ∧ (upload_frame camera_password env req s).1 = s := by
  simp [upload_frame, hauth, hnothrow, hdecode]

/-- Witness for C6: an authorised, spill-signalling upload against the
rejecting codec is a pure 400. -/
theorem upload_decode_failure_noop_witness :
    (upload_frame "pw" uploadEnvDecodeFail (signalRequest "pw" true 0) (initialState Nat)).2 = .invalidImageData
    ∧ (upload_frame "pw" uploadEnvDecodeFail (signalRequest "pw" true 0) (initialState Nat)).1 = initialState Nat :=
  upload_decode_failure_noop "pw" uploadEnvDecodeFail (signalRequest "pw" true 0)
    (initialState Nat) rfl rfl rfl

/-- C7: `/stream` with `stream_active = false` replies 503 "No active
stream" without opening the generator; `/api/frame` replies 503 whenever
the stream is inactive or no frame is stored; and neither endpoint mutates
any state. -/
theorem inactive_read_endpoints {F : Type} (s : ServerState F) :
    (s.stream_active = false → video_feed s = (s, .noActiveStream))
    ∧ (video_feed s).1 = s
    ∧ (s.stream_active = false ∨ s.latest_frame = none →
        (get_latest_frame s).2 = .noFrameAvailable)
    ∧ (get_latest_frame s).1 = s := by
  refine ⟨fun h => by simp [video_feed, h], ?_, ?_, ?_⟩
  · cases h : s.stream_active <;> simp [video_feed, h]
  · rintro (h | h) <;> cases hf : s.latest_frame <;>
      simp [get_latest_frame, h, hf]
  · cases hf : s.latest_frame <;> cases h : s.stream_active <;>
      simp [get_latest_frame, h, hf]

/-- Witness for C7: on the fresh state (inactive, no frame) both read
endpoints reply 503 and return the state unchanged. -/
theorem inactive_read_endpoints_witness :
    video_feed (initialState Nat) = (initialState Nat, .noActiveStream)
    ∧ (get_latest_frame (initialState Nat)).2 = .noFrameAvailable
    ∧ (video_feed (initialState Nat)).1 = initialState Nat
    ∧ (get_latest_frame (initialState Nat)).1 = initialState Nat := by
  have h := inactive_read_endpoints (initialState Nat)
  exact ⟨h.1 rfl, h.2.2.1 (Or.inl rfl), h.2.1, h.2.2.2⟩

/-- C8, counterexample to the claim as stated: with the frame received at
clock 5, two status calls both at clock 7 — a non-decreasing clock, no
intervening upload — report the same age, so the age does not strictly
increase between the two calls. -/
theorem get_status_age_not_strict :
    (7 : Nat) ≤ 7
    ∧ (get_status 7 stC8).frame_age_seconds = some 2
    ∧ ¬ (∀ a1 a2 : Int,
        (get_status 7 stC8).frame_age_seconds = some a1 →
        (get_status 7 stC8).frame_age_seconds = some a2 → a1 < a2) := by
  refine ⟨le_refl 7, by decide, fun h => ?_⟩
  have h2 := h 2 2 (by decide) (by decide)
  omega

/-- C8 as amended: `frame_age_seconds` is null exactly when
`last_frame_time = 0`; otherwise it equals `server_time - last_frame_time`,
is ≥ 0 whenever the clock has not gone backwards since the frame arrived,
and between two status calls with no intervening upload it is
non-decreasing under a non-decreasing clock, strictly increasing whenever
the clock strictly advanced. -/
theorem get_status_age {F : Type} (s : ServerState F) (t1 t2 : Nat)
    (hlast : s.last_frame_time ≤ t1) (hmono : t1 ≤ t2) :
    ((get_status t1 s).frame_age_seconds = none ↔ s.last_frame_time = 0)
    ∧ (get_status t1 s).server_time = t1
    ∧ (s.last_frame_time ≠ 0 →
        (get_status t1 s).frame_age_seconds =
          some ((t1 : Int) - (s.last_frame_time : Int))
        ∧ ∀ a1 a2 : Int,
            (get_status t1 s).frame_age_seconds = some a1 →
            (get_status t2 s).frame_age_seconds = some a2 →
            0 ≤ a1 ∧ a1 ≤ a2 ∧ (t1 < t2 → a1 < a2)) := by
  by_cases h0 : s.last_frame_time = 0
  · simp [get_status, h0]
  · have hpos : 0 < s.last_frame_time := Nat.pos_of_ne_zero h0
    refine ⟨by simp [get_status, hpos, h0], rfl,
      fun _ => ⟨by simp [get_status, hpos], ?_⟩⟩
    intro a1 a2 h1 h2
    simp [get_status, hpos] at h1 h2
    omega

/-- Witness for the amended C8: frame at clock 5, status calls at clocks 6
and 7. -/
theorem get_status_age_witness :
    ((get_status 6 stC8).frame_age_seconds = none ↔ stC8.last_frame_time = 0)
    ∧ (get_status 6 stC8).server_time = 6
    ∧ (stC8.last_frame_time ≠ 0 →
        (get_status 6 stC8).frame_age_seconds =
          some ((6 : Int) - (stC8.last_frame_time : Int))
        ∧ ∀ a1 a2 : Int,
            (get_status 6 stC8).frame_age_seconds = some a1 →
            (get_status 7 stC8).frame_age_seconds = some a2 →
            0 ≤ a1 ∧ a1 ≤ a2 ∧ (6 < 7 → a1 < a2)) :=
  get_status_age stC8 6 7 (by decide) (by decide)

/-- C9: with the correct password `start_stream` only sets `stream_active`
to true and `stop_stream` only sets it to false; with a wrong password both
reply 401 and return the state unchanged; and in every case the frame,
timestamp, spill flag and history are untouched. -/
theorem stream_control_effects {F : Type} (camera_password : String)
    (body_password : Option String) (s : ServerState F) :
    (body_password = some camera_password →
      start_stream camera_password body_password s =
        ({ s with stream_active := true }, .streamStarted)
      ∧ stop_stream camera_password body_password s =
        ({ s with stream_active := false }, .streamStopped))
    ∧ (body_password ≠ some camera_password →
      start_stream camera_password body_password s = (s, .unauthorized)
      ∧ stop_stream camera_password body_password s = (s, .unauthorized))
    ∧ (start_stream camera_password body_password s).1.latest_frame = s.latest_frame
    ∧ (start_stream camera_password body_password s).1.last_frame_time = s.last_frame_time
    ∧ (start_stream camera_password body_password s).1.oil_spill_detected = s.oil_spill_detected
    ∧ (start_stream camera_password body_password s).1.oil_spill_history = s.oil_spill_history
    ∧ (stop_stream camera_password body_password s).1.latest_frame = s.latest_frame
    ∧ (stop_stream camera_password body_password s).1.last_frame_time = s.last_frame_time
    ∧ (stop_stream camera_password body_password s).1.oil_spill_detected = s.oil_spill_detected
    ∧ (stop_stream camera_password body_password s).1.oil_spill_history = s.oil_spill_history := by
  by_cases hauth : body_password = some camera_password <;>
    simp [start_stream, stop_stream, hauth]

/-- Witness for C9: authorised start and stop on the fresh state. -/
theorem stream_control_effects_witness :
    start_stream "pw" (some "pw") (initialState Nat) =
      ({ initialState Nat with stream_active := true }, .streamStarted)
    ∧ stop_stream "pw" (some "pw") (initialState Nat) =
      ({ initialState Nat with stream_active := false }, .streamStopped)
    ∧ (start_stream "pw" (some "pw") (initialState Nat)).1.oil_spill_history =
      (initialState Nat).oil_spill_history
    ∧ (stop_stream "pw" (some "pw") (initialState Nat)).1.latest_frame =
      (initialState Nat).latest_frame := by
  have h := stream_control_effects "pw" (some "pw") (initialState Nat)
  exact ⟨(h.1 rfl).1, (h.1 rfl).2, h.2.2.2.2.2.1, h.2.2.2.2.2.2.1⟩

/-- C10: the spill signal is the exact string comparison of line 107 — an
authorised, decodable upload whose X-Oil-Spill-Detected header is anything
other than the exact string "true" (absent, "True", "TRUE", "1", ...)
succeeds with 200, appends no event, and sets `oil_spill_detected` to
false. -/
theorem spill_signal_exact_string {B F : Type} (camera_password : String)
    (env : UploadEnv B F) (req : UploadRequest B) (s : ServerState F) (frame : F)
    (hauth : req.x_camera_auth = some camera_password)
    (hnothrow : env.decodeThrows req.data = false)
    (hdecode : env.decode req.data = some frame)
    (hsig : req.x_oil_spill_detected ≠ some "true") :
    (upload_frame camera_password env req s).2 = .frameReceived
    ∧ (upload_frame camera_password env req s).1.oil_spill_history =
        s.oil_spill_history
    ∧ (upload_frame camera_password env req s).1.oil_spill_detected = false := by
  simp [upload_frame, hauth, hnothrow, hdecode, hsig, finishUpload]

/-- Witness for C10: the capitalised header "True" counts as no detection. -/
theorem spill_signal_exact_string_witness :
    (upload_frame "pw" (signalEnv 0) uploadReqTrueCap (initialState Nat)).2 = .frameReceived
    ∧ (upload_frame "pw" (signalEnv 0) uploadReqTrueCap (initialState Nat)).1.oil_spill_history =
      (initialState Nat).oil_spill_history
    ∧ (upload_frame "pw" (signalEnv 0) uploadReqTrueCap (initialState Nat)).1.oil_spill_detected = false :=
  spill_signal_exact_string "pw" (signalEnv 0) uploadReqTrueCap
    (initialState Nat) 7 rfl rfl rfl (by decide)
